import Mathlib

/-!
Verification development for the billing subsystem of django-saas-launchpad:
the payment-gateway abstraction (`billing/gateways/razorpay_gateway.py`),
the service layer (`billing/services.py`) and the webhook dispatcher
(`billing/webhooks.py`).

The Python code is shallowly embedded: JSON payloads and Python dict values
become the `Json` type below (with Python's dict/`get`/truthiness semantics),
the relational store becomes an explicit `Store` record threaded through every
operation, exceptions become `Except PyErr`, and Django's
`transaction.atomic` becomes an explicit rollback wrapper.
-/

namespace Billing

/-- A JSON / Python value as it flows through the webhook pipeline.
`Json.null` doubles as Python's `None` (which is what `json.loads` produces
for JSON null and what `dict.get` returns for a missing key). -/
inductive Json where
  | null
  | bool (b : Bool)
  | num (n : Int)
  | str (s : String)
  | obj (fields : List (String × Json))

-- Structural equality on `Json` values, mirroring Python `==` on the
-- fragment used by the pipeline (numbers, strings, booleans, None, dicts).
mutual

def Json.beq : Json → Json → Bool
  | .null, .null => true
  | .bool a, .bool b => a == b
  | .num a, .num b => a == b
  | .str a, .str b => a == b
  | .obj a, .obj b => Json.beqFields a b
  | _, _ => false

def Json.beqFields : List (String × Json) → List (String × Json) → Bool
  | [], [] => true
  | (k1, v1) :: xs, (k2, v2) :: ys =>
      k1 == k2 && Json.beq v1 v2 && Json.beqFields xs ys
  | _, _ => false

end

/-- Python truthiness: `None`, `False`, `0`, `''` and `{}` are falsy. -/
def Json.truthy : Json → Bool
  | .null => false
  | .bool b => b
  | .num n => n != 0
  | .str s => s ≠ ""
  | .obj fields => !fields.isEmpty

/-- Whether the value is a dict (the only values with a `.get` method here). -/
def Json.isObj : Json → Bool
  | .obj _ => true
  | _ => false

/-- Exceptions of the embedded Python code. -/
inductive PyErr where
  | keyError
  | attributeError
  | typeError
  | nameError
  | doesNotExist
  | integrityError
  | dbError
  | gatewayException (code : String)
  | jsonDecodeError
deriving DecidableEq

/-- Total lookup in a dict's field list: the value of the first binding of
`k`, or `d` when `k` is absent.  (Used only under an `isObj` guard.) -/
def Json.objGetD (j : Json) (k : String) (d : Json) : Json :=
  match j with
  | .obj fields =>
      match fields.lookup k with
      | some v => v
      | none => d
  | _ => d

/-- Python `x.get(k, d)`: returns the stored value when the key is present
(even when that value is `None`), the default when absent, and raises
`AttributeError` when `x` is not a dict. -/
def Json.pyGetD (j : Json) (k : String) (d : Json) : Except PyErr Json :=
  match j with
  | .obj _ => .ok (j.objGetD k d)
  | _ => .error .attributeError

/-- Python `x.get(k)` (single-argument form, default `None`). -/
def Json.pyGet (j : Json) (k : String) : Except PyErr Json :=
  j.pyGetD k .null

/-- Python `x[k]`: `KeyError` when the key is absent, `TypeError` when `x`
is not a dict. -/
def Json.pyIndex (j : Json) (k : String) : Except PyErr Json :=
  match j with
  | .obj fields =>
      match fields.lookup k with
      | some v => .ok v
      | none => .error .keyError
  | _ => .error .typeError

/-- Python `a or b` on two values (short-circuit on truthiness). -/
def Json.pyOr (a b : Json) : Json :=
  if a.truthy then a else b

/-! ## The data model (billing/models.py)

Rows keep the fields the billing core reads and writes.  Fields that the
webhook pipeline assigns straight from payload dicts are typed `Json`, since
the Python code stores whatever value the payload carried. -/

/-- A `billing.models.Subscription` row.  `gateway_subscription_id` carries a
database-level unique constraint (`unique=True` in models.py). -/
structure SubscriptionRow where
  organization : Nat
  plan : Nat
  gateway : String
  gateway_subscription_id : Json
  gateway_customer_id : Json
  status : Json
  current_period_start : Json
  current_period_end : Json
  trial_end : Json
  cancel_at_period_end : Json
  cancelled_at : Json

/-- A `billing.models.Invoice` row.  `gateway_invoice_id` is unique;
`organization` is a non-nullable foreign key (no `null=True` in models.py),
while `subscription` is nullable. -/
structure InvoiceRow where
  organization : Option Nat
  subscription : Json
  gateway : Json
  gateway_invoice_id : Json
  amount_cents : Json
  currency : Json
  status : Json
  issued_at : Json
  paid_at : Json
  invoice_url : Json

/-- Modelled from the spec: the `WebhookEvent` model is referenced by
`billing/webhooks.py` and `billing/admin.py` but no `WebhookEvent` class
appears in `billing/models.py` in the source tree.  Spec section 3 defines it
as the durable dedup/audit log with fields gateway event id, event type,
gateway name and raw payload, and spec section 5 requires the pair
`(event_id, gateway)` to carry a storage-level uniqueness constraint. -/
structure WebhookEventRow where
  event_id : Json
  event_type : String
  gateway : String
  payload : Json

/-- The relational store the billing core reads and writes. -/
structure Store where
  subscriptions : List SubscriptionRow
  invoices : List InvoiceRow
  webhook_events : List WebhookEventRow

/-! ## Store operations (the ORM calls the billing core performs) -/

/-- `Subscription.objects.get(gateway_subscription_id=sid)` —
the lookup `BillingService.handle_successful_payment` performs
(services.py line 230: no gateway filter). -/
def findSubscriptionById (st : Store) (sid : Json) : Option SubscriptionRow :=
  st.subscriptions.find? (fun r => Json.beq r.gateway_subscription_id sid)

/-- `Subscription.objects.get(gateway_subscription_id=sid, gateway=gw)` —
the lookup the webhook handlers perform (webhooks.py). -/
def findSubscription (st : Store) (sid : Json) (gw : String) :
    Option SubscriptionRow :=
  st.subscriptions.find?
    (fun r => Json.beq r.gateway_subscription_id sid && r.gateway == gw)

/-- `subscription.save()` on an existing row: replaces the row with the same
`gateway_subscription_id` (the unique key standing in for the primary key). -/
def saveSubscription (st : Store) (sub : SubscriptionRow) : Store :=
  { st with
    subscriptions := st.subscriptions.map fun r =>
      if Json.beq r.gateway_subscription_id sub.gateway_subscription_id
      then sub else r }

/-- `Invoice.objects.filter(gateway_invoice_id=k)` first match. -/
def findInvoice (st : Store) (k : Json) : Option InvoiceRow :=
  st.invoices.find? (fun r => Json.beq r.gateway_invoice_id k)

/-- `invoice.save()` on an existing row, keyed on the unique
`gateway_invoice_id`. -/
def saveInvoice (st : Store) (inv : InvoiceRow) : Store :=
  { st with
    invoices := st.invoices.map fun r =>
      if Json.beq r.gateway_invoice_id inv.gateway_invoice_id
      then inv else r }

/-- `Invoice.objects.create(...)`: the INSERT fails with `IntegrityError`
when a NOT NULL column (`organization`, `gateway_invoice_id`,
`amount_cents`) receives NULL or the unique `gateway_invoice_id` collides. -/
def createInvoice (st : Store) (inv : InvoiceRow) : Except PyErr Store :=
  if inv.organization.isNone then .error .integrityError
  else if Json.beq inv.gateway_invoice_id .null then .error .integrityError
  else if Json.beq inv.amount_cents .null then .error .integrityError
  else if (findInvoice st inv.gateway_invoice_id).isSome then
    .error .integrityError
  else .ok { st with invoices := st.invoices ++ [inv] }

/-- `WebhookEvent.objects.filter(event_id=e, gateway=g).exists()`. -/
def webhookEventExists (st : Store) (e : Json) (g : String) : Bool :=
  st.webhook_events.any (fun r => Json.beq r.event_id e && r.gateway == g)

/-- `WebhookEvent.objects.create(...)` under the spec-modelled uniqueness
constraint on `(event_id, gateway)`: a duplicate INSERT fails with
`IntegrityError` (spec section 5). -/
def createWebhookEvent (st : Store) (e : Json) (ty : String) (g : String)
    (payload : Json) : Except PyErr Store :=
  if webhookEventExists st e g then .error .integrityError
  else .ok { st with webhook_events :=
    st.webhook_events ++ [⟨e, ty, g, payload⟩] }

/-! ## The gateway layer (billing/gateways/base.py, razorpay_gateway.py)

`GatewayResponse` is the standardized envelope of `base.py`.  The concrete
`RazorpayGateway` methods perform an HTTP call and then translate the
provider's response dict into that envelope; the translation step (the part
of the Python method after the SDK call returns) is embedded as a function of
the provider's response value. -/

/-- `base.GatewayResponse` (the fields the service layer reads). -/
structure GatewayResp where
  success : Bool
  data : Json
  error_message : Json
  error_code : Json

/-- Builds the `GatewayResponse` that `RazorpayGateway.create_customer`
returns when the SDK call yields the customer dict `customer`
(razorpay_gateway.py lines 58-70): direct indexing for `id` and `email`,
`.get` for the rest. -/
def razorpayCreateCustomerResp (customer : Json) : Except PyErr GatewayResp := do
  let cid ← customer.pyIndex "id"
  let email ← customer.pyIndex "email"
  let name ← customer.pyGet "name"
  let created ← customer.pyGet "created_at"
  .ok { success := true
        data := .obj [("customer_id", cid), ("email", email),
                      ("name", name), ("created_at", created)]
        error_message := .null, error_code := .null }

/-- Builds the `GatewayResponse` that `RazorpayGateway.create_subscription`
returns when the SDK call yields the subscription dict (razorpay_gateway.py
lines 156-171).  The billing periods are exposed under the provider's keys
`current_start` / `current_end`. -/
def razorpayCreateSubscriptionResp (s : Json) : Except PyErr GatewayResp := do
  let sid ← s.pyIndex "id"
  let status ← s.pyIndex "status"
  let plan ← s.pyIndex "plan_id"
  let cust ← s.pyIndex "customer_id"
  let cs ← s.pyGet "current_start"
  let ce ← s.pyGet "current_end"
  let charge ← s.pyGet "charge_at"
  let sa ← s.pyGet "start_at"
  let ea ← s.pyGet "end_at"
  .ok { success := true
        data := .obj [("subscription_id", sid), ("status", status),
                      ("plan_id", plan), ("customer_id", cust),
                      ("current_start", cs), ("current_end", ce),
                      ("charge_at", charge), ("start_at", sa),
                      ("end_at", ea)]
        error_message := .null, error_code := .null }

/-- Builds the `GatewayResponse` that `RazorpayGateway.cancel_subscription`
returns when the SDK call yields the subscription dict (razorpay_gateway.py
lines 204-214): it carries the gateway-reported `cancelled_at`. -/
def razorpayCancelSubscriptionResp (s : Json) : Except PyErr GatewayResp := do
  let sid ← s.pyIndex "id"
  let status ← s.pyIndex "status"
  let ended ← s.pyGet "ended_at"
  let cancelled ← s.pyGet "cancelled_at"
  .ok { success := true
        data := .obj [("subscription_id", sid), ("status", status),
                      ("ended_at", ended), ("cancelled_at", cancelled)]
        error_message := .null, error_code := .null }

/-- Builds the `GatewayResponse` that `RazorpayGateway.get_subscription`
returns when the SDK call yields the subscription dict (razorpay_gateway.py
lines 234-248). -/
def razorpayGetSubscriptionResp (s : Json) : Except PyErr GatewayResp := do
  let sid ← s.pyIndex "id"
  let status ← s.pyIndex "status"
  let plan ← s.pyIndex "plan_id"
  let cust ← s.pyIndex "customer_id"
  let cs ← s.pyGet "current_start"
  let ce ← s.pyGet "current_end"
  let ended ← s.pyGet "ended_at"
  let cancelled ← s.pyGet "cancelled_at"
  .ok { success := true
        data := .obj [("subscription_id", sid), ("status", status),
                      ("plan_id", plan), ("customer_id", cust),
                      ("current_start", cs), ("current_end", ce),
                      ("ended_at", ended), ("cancelled_at", cancelled)]
        error_message := .null, error_code := .null }

/-- Stand-in for `hmac.new(key, msg, sha256).hexdigest()`.  The development
uses no property of the hash beyond its being a deterministic function of the
key and the raw message bytes, so a concrete injective-by-construction
encoding serves as the model. -/
def hmacSha256Hex (key msg : String) : String :=
  String.append (String.append "hmac-sha256(" key)
    (String.append "," (String.append msg ")"))

/-- `RazorpayGateway.verify_webhook_signature` (razorpay_gateway.py lines
416-447): raises `webhook_secret_missing` when no secret is configured,
otherwise constant-time-compares the HMAC of the raw body with the header. -/
def verifyWebhookSignature (webhook_secret : Option String)
    (payload signature : String) : Except PyErr Bool :=
  match webhook_secret with
  | none => .error (.gatewayException "webhook_secret_missing")
  | some k => .ok (hmacSha256Hex k payload == signature)

/-- The normalized event dict `parse_webhook_event` returns. -/
structure ParsedEvent where
  event_type : Json
  event_id : Json
  data : Json

/-- `RazorpayGateway.parse_webhook_event` (razorpay_gateway.py lines
449-481).  The body runs under `try`, and any exception (here: Python's
`AttributeError` from calling `.get` on a non-dict) is re-raised as
`GatewayException('webhook_parsing_failed')`.  The event id is
`subscription_entity.get('id') or payment_entity.get('id')` — the entity id,
with Python's short-circuiting `or`. -/
def parseWebhookEvent (payload : Json) : Except PyErr ParsedEvent :=
  let body : Except PyErr ParsedEvent := do
    let event_type ← payload.pyGet "event"
    let event_payload ← payload.pyGetD "payload" (.obj [])
    let s1 ← event_payload.pyGetD "subscription" (.obj [])
    let subscription_entity ← s1.pyGetD "entity" (.obj [])
    let p1 ← event_payload.pyGetD "payment" (.obj [])
    let payment_entity ← p1.pyGetD "entity" (.obj [])
    let sid ← subscription_entity.pyGet "id"
    let event_id ←
      if sid.truthy then pure sid
      else payment_entity.pyGet "id"
    .ok { event_type := event_type
          event_id := event_id
          data := .obj [("subscription", subscription_entity),
                        ("payment", payment_entity),
                        ("raw_payload", event_payload)] }
  match body with
  | .ok ev => .ok ev
  | .error _ => .error (.gatewayException "webhook_parsing_failed")

/-! ## The service layer (billing/services.py) -/

/-- `billing/services.py` calls `logger.warning` / `logger.error` in its
`except` blocks, but the module never imports `logging` nor defines `logger`
(its imports are only typing, django.utils.timezone, django.db.transaction,
the models, the gateway factory/base and Organization).  Every such call
therefore raises `NameError` at runtime. -/
def servicesLoggerCall : Except PyErr Unit := .error .nameError

/-- Extracts a machine-readable code from a `GatewayResponse.error_code`
field for re-raising as `GatewayException(error_code=...)`. -/
def errCodeOf (resp : GatewayResp) : String :=
  match resp.error_code with
  | .str c => c
  | _ => ""

/-- `BillingService.create_subscription` (services.py lines 16-84), with the
two gateway HTTP calls supplied as their returned `GatewayResponse` values.
Raises on a non-success response; otherwise persists the local row reading
`subscription_id`, `status` (default `'incomplete'`),
`current_period_start`, `current_period_end` and `trial_end` from the
gateway response data. -/
def createSubscriptionService (custResp subResp : GatewayResp)
    (organization plan_ref : Nat) (plan_gateway : String) (st : Store) :
    Except PyErr (SubscriptionRow × Store) := do
  if !custResp.success then
    throw (.gatewayException (errCodeOf custResp))
  let customer_id ← custResp.data.pyGet "customer_id"
  if !subResp.success then
    throw (.gatewayException (errCodeOf subResp))
  let sub_data := subResp.data
  let sid ← sub_data.pyGet "subscription_id"
  let status ← sub_data.pyGetD "status" (.str "incomplete")
  let cps ← sub_data.pyGet "current_period_start"
  let cpe ← sub_data.pyGet "current_period_end"
  let te ← sub_data.pyGet "trial_end"
  let row : SubscriptionRow :=
    { organization := organization, plan := plan_ref, gateway := plan_gateway
      gateway_subscription_id := sid, gateway_customer_id := customer_id
      status := status, current_period_start := cps
      current_period_end := cpe, trial_end := te
      cancel_at_period_end := .bool false, cancelled_at := .null }
  let st' ← createSubscriptionRow st row
  .ok (row, st')
where
  /-- `Subscription.objects.create`: INSERT failing with `IntegrityError` on
  a NULL in a NOT NULL column or a duplicate of the unique
  `gateway_subscription_id`. -/
  createSubscriptionRow (st : Store) (row : SubscriptionRow) :
      Except PyErr Store :=
    if Json.beq row.gateway_subscription_id .null then .error .integrityError
    else if Json.beq row.gateway_customer_id .null then .error .integrityError
    else if st.subscriptions.any (fun r =>
        Json.beq r.gateway_subscription_id row.gateway_subscription_id) then
      .error .integrityError
    else .ok { st with subscriptions := st.subscriptions ++ [row] }

/-- `BillingService.cancel_subscription` (services.py lines 86-130), with the
gateway cancel call supplied as its returned `GatewayResponse`.  On success:
records the `cancel_at_period_end` flag; for immediate cancellation sets
`status='cancelled'` and `cancelled_at=timezone.now()` (the local clock
`now`, not the gateway-reported timestamp); for deferred cancellation adopts
the gateway-returned status. -/
def cancelSubscriptionService (cancelResp : GatewayResp) (now : Nat)
    (st : Store) (subscription : SubscriptionRow)
    (cancel_at_period_end : Bool) : Except PyErr (SubscriptionRow × Store) := do
  if !cancelResp.success then
    throw (.gatewayException (errCodeOf cancelResp))
  let sub1 := { subscription with
    cancel_at_period_end := Json.bool cancel_at_period_end }
  let sub2 ←
    if !cancel_at_period_end then
      pure { sub1 with status := Json.str "cancelled"
                       cancelled_at := Json.num (Int.ofNat now) }
    else do
      let s ← cancelResp.data.pyGetD "status" subscription.status
      pure { sub1 with status := s }
  .ok (sub2, saveSubscription st sub2)

/-- The field updates `BillingService.sync_subscription_from_gateway`
applies to the local row from the gateway response data (services.py lines
161-178): every field falls back to its current local value when the key is
absent, and `cancelled_at` is only adopted when the gateway value is truthy
and the local value is falsy. -/
def syncApply (s : SubscriptionRow) (d : Json) :
    Except PyErr SubscriptionRow := do
  let status ← d.pyGetD "status" s.status
  let cps ← d.pyGetD "current_period_start" s.current_period_start
  let cpe ← d.pyGetD "current_period_end" s.current_period_end
  let te ← d.pyGetD "trial_end" s.trial_end
  let cape ← d.pyGetD "cancel_at_period_end" s.cancel_at_period_end
  let ca0 ← d.pyGet "cancelled_at"
  let s1 := { s with status := status, current_period_start := cps
                     current_period_end := cpe, trial_end := te
                     cancel_at_period_end := cape }
  if ca0.truthy && !s.cancelled_at.truthy then do
    let cav ← d.pyIndex "cancelled_at"
    pure { s1 with cancelled_at := cav }
  else
    pure s1

/-- `BillingService.sync_subscription_from_gateway` (services.py lines
132-182), with the gateway `get_subscription` call supplied as its returned
`GatewayResponse`. -/
def syncSubscriptionService (subResp : GatewayResp) (st : Store)
    (subscription : SubscriptionRow) :
    Except PyErr (SubscriptionRow × Store) :=
  if !subResp.success then
    .error (.gatewayException (errCodeOf subResp))
  else
    match syncApply subscription subResp.data with
    | .error e => .error e
    | .ok s' => .ok (s', saveSubscription st s')

/-- The `Invoice.objects.get_or_create` plus not-created-update step of
`handle_successful_payment` (services.py lines 206-224): an existing row
(keyed on the unique `gateway_invoice_id`) is marked paid in place; a
missing row is inserted with the defaults dict — which does not include an
`organization`, a NOT NULL column. -/
def paidInvoiceUpsert (now : Nat) (st : Store) (invoice_data : Json)
    (gateway gid : Json) : Except PyErr (InvoiceRow × Store) :=
  match findInvoice st gid with
  | some inv0 => do
      let url ← invoice_data.pyGetD "invoice_url" inv0.invoice_url
      let inv1 := { inv0 with status := Json.str "paid"
                              paid_at := Json.num (Int.ofNat now)
                              invoice_url := url }
      pure (inv1, saveInvoice st inv1)
  | none => do
      let amount ← invoice_data.pyGetD "amount_cents" (Json.num 0)
      let currency ← invoice_data.pyGetD "currency" (Json.str "USD")
      let issued ← invoice_data.pyGet "issued_at"
      let url ← invoice_data.pyGet "invoice_url"
      let inv1 : InvoiceRow :=
        { organization := none, subscription := .null, gateway := gateway
          gateway_invoice_id := gid, amount_cents := amount
          currency := currency, status := Json.str "paid"
          issued_at := issued, paid_at := Json.num (Int.ofNat now)
          invoice_url := url }
      let st1 ← createInvoice st inv1
      pure (inv1, st1)

/-- The body of `BillingService.handle_successful_payment` (services.py
lines 201-253), before the `@transaction.atomic` rollback wrapper.
`subSaveFault` injects a database error at the `subscription.save()` of line
240 (the status-update save), modelling that save raising.  Every `except`
block's logging call is `servicesLoggerCall`, which raises `NameError`
because `logger` is undefined in the module; in particular the
`Subscription.DoesNotExist` branch never reaches its `pass`, and the inner
`except Exception` branch never reaches its `raise`. -/
def handleSuccessfulPaymentBody (now : Nat) (subSaveFault : Bool)
    (st : Store) (invoice_data : Json) :
    Except PyErr (InvoiceRow × Store) := do
  let gateway ← invoice_data.pyIndex "gateway"
  let gid ← invoice_data.pyIndex "gateway_invoice_id"
  let r1 ← paidInvoiceUpsert now st invoice_data gateway gid
  let inv1 := r1.1
  let st1 := r1.2
  let gsid ← invoice_data.pyGet "gateway_subscription_id"
  if gsid.truthy then
    match findSubscriptionById st1 gsid with
    | none => do
        servicesLoggerCall
        pure (inv1, st1)
    | some sub => do
        let inv2 := { inv1 with subscription := sub.gateway_subscription_id
                                organization := some sub.organization }
        let st2 := saveInvoice st1 inv2
        if Json.beq sub.status (.str "past_due")
            || Json.beq sub.status (.str "unpaid")
            || Json.beq sub.status (.str "incomplete") then
          if subSaveFault then do
            servicesLoggerCall
            throw .dbError
          else
            pure (inv2, saveSubscription st2 { sub with
              status := Json.str "active" })
        else
          pure (inv2, st2)
  else
    pure (inv1, st1)

/-- `BillingService.handle_successful_payment` (services.py lines 184-260).
The function is decorated `@transaction.atomic`, so when the body raises the
store writes roll back; the surfaced exception is `NameError` since both the
`except KeyError` and `except Exception` handlers begin with a call to the
undefined `logger`. -/
def handleSuccessfulPayment (now : Nat) (subSaveFault : Bool) (st : Store)
    (invoice_data : Json) : Except PyErr InvoiceRow × Store :=
  match handleSuccessfulPaymentBody now subSaveFault st invoice_data with
  | .ok (inv, st') => (.ok inv, st')
  | .error _ => (.error .nameError, st)

/-- The `Invoice.objects.get_or_create` plus not-created-update step of
`handle_failed_payment` (services.py lines 284-299). -/
def openInvoiceUpsert (st : Store) (invoice_data : Json)
    (gateway gid : Json) : Except PyErr (InvoiceRow × Store) :=
  match findInvoice st gid with
  | some inv0 =>
      pure ({ inv0 with status := Json.str "open" },
        saveInvoice st { inv0 with status := Json.str "open" })
  | none => do
      let amount ← invoice_data.pyGetD "amount_cents" (Json.num 0)
      let currency ← invoice_data.pyGetD "currency" (Json.str "USD")
      let issued ← invoice_data.pyGet "issued_at"
      let url ← invoice_data.pyGet "invoice_url"
      let inv1 : InvoiceRow :=
        { organization := none, subscription := .null, gateway := gateway
          gateway_invoice_id := gid, amount_cents := amount
          currency := currency, status := Json.str "open"
          issued_at := issued, paid_at := .null, invoice_url := url }
      let st1 ← createInvoice st inv1
      pure (inv1, st1)

/-- The body of `BillingService.handle_failed_payment` (services.py lines
279-327): like the success handler but the invoice status becomes `'open'`
and a found subscription is unconditionally set to `'past_due'`. -/
def handleFailedPaymentBody (st : Store) (invoice_data : Json) :
    Except PyErr (InvoiceRow × Store) := do
  let gateway ← invoice_data.pyIndex "gateway"
  let gid ← invoice_data.pyIndex "gateway_invoice_id"
  let r1 ← openInvoiceUpsert st invoice_data gateway gid
  let inv1 := r1.1
  let st1 := r1.2
  let gsid ← invoice_data.pyGet "gateway_subscription_id"
  if gsid.truthy then
    match findSubscriptionById st1 gsid with
    | none => do
        servicesLoggerCall
        pure (inv1, st1)
    | some sub => do
        let inv2 := { inv1 with subscription := sub.gateway_subscription_id
                                organization := some sub.organization }
        let st2 := saveInvoice st1 inv2
        pure (inv2, saveSubscription st2 { sub with
          status := Json.str "past_due" })
  else
    pure (inv1, st1)

/-- `BillingService.handle_failed_payment` (services.py lines 262-334),
with its `@transaction.atomic` rollback wrapper and the `NameError` from the
undefined `logger` in its `except` handlers. -/
def handleFailedPayment (st : Store) (invoice_data : Json) :
    Except PyErr InvoiceRow × Store :=
  match handleFailedPaymentBody st invoice_data with
  | .ok (inv, st') => (.ok inv, st')
  | .error _ => (.error .nameError, st)

/-! ## The webhook dispatcher (billing/webhooks.py)

Each endpoint returns an HTTP status, the resulting store, and a trace of
the observable steps it performed, in order.  `billing/webhooks.py` defines
its own module logger (`logger = logging.getLogger(__name__)` at line 16),
so its logging calls do not raise; plain log lines are not traced. -/

/-- The observable steps of one webhook delivery. -/
inductive Action where
  | verifiedSignature (valid : Bool)
  | parsedJson
  | dedupCheck (alreadyProcessed : Bool)
  | routedHandler (event_type : String)
  | unhandledEvent
  | storeWrite
  | swallowedIntegrityError
  | mailAdmins
  | enqueuedEmail
deriving DecidableEq

/-- An incoming webhook POST: the raw body bytes and the value of the
signature header. -/
structure WebhookRequest where
  body : String
  signature : String

/-- The outcome of one delivery through an endpoint. -/
structure DispatchResult where
  status : Nat
  store : Store
  trace : List Action

/-- `handle_subscription_activated` (webhooks.py lines 170-213).  A missing
`subscription_id` key in the normalized `data` dict returns early; an
unknown subscription logs a warning and mails admins; otherwise the row is
activated and the `WebhookEvent` audit row is inserted, a duplicate insert's
`IntegrityError` being swallowed by the handler's broad `except Exception`.
When `data` is not a dict, `data.get` raises `AttributeError`, which the
same broad `except` swallows. -/
def handleSubscriptionActivatedH (data : Json) (gateway : String)
    (event_id event_data : Json) (st : Store) : Store × List Action :=
  match data.pyGet "subscription_id" with
  | .error _ => (st, [])
  | .ok subscription_id =>
    if !subscription_id.truthy then (st, [])
    else match findSubscription st subscription_id gateway with
      | none => (st, [.mailAdmins])
      | some sub =>
        let st1 := saveSubscription st { sub with
          status := .str "active"
          current_period_start := data.objGetD "current_period_start" .null
          current_period_end := data.objGetD "current_period_end" .null }
        match createWebhookEvent st1 event_id "subscription.activated"
            gateway event_data with
        | .error _ => (st1, [.storeWrite, .swallowedIntegrityError])
        | .ok st2 => (st2, [.storeWrite, .storeWrite, .enqueuedEmail])

/-- `handle_subscription_cancelled` (webhooks.py lines 264-305): sets
`status='cancelled'` and `cancelled_at=timezone.now()`. -/
def handleSubscriptionCancelledH (now : Nat) (data : Json) (gateway : String)
    (event_id event_data : Json) (st : Store) : Store × List Action :=
  match data.pyGet "subscription_id" with
  | .error _ => (st, [])
  | .ok subscription_id =>
    if !subscription_id.truthy then (st, [])
    else match findSubscription st subscription_id gateway with
      | none => (st, [.mailAdmins])
      | some sub =>
        let st1 := saveSubscription st { sub with
          status := .str "cancelled"
          cancelled_at := .num (Int.ofNat now) }
        match createWebhookEvent st1 event_id "subscription.cancelled"
            gateway event_data with
        | .error _ => (st1, [.storeWrite, .swallowedIntegrityError])
        | .ok st2 => (st2, [.storeWrite, .storeWrite, .enqueuedEmail])

/-- `handle_subscription_paused` (webhooks.py lines 308-344). -/
def handleSubscriptionPausedH (data : Json) (gateway : String)
    (event_id event_data : Json) (st : Store) : Store × List Action :=
  match data.pyGet "subscription_id" with
  | .error _ => (st, [])
  | .ok subscription_id =>
    if !subscription_id.truthy then (st, [])
    else match findSubscription st subscription_id gateway with
      | none => (st, [.mailAdmins])
      | some sub =>
        let st1 := saveSubscription st { sub with status := .str "paused" }
        match createWebhookEvent st1 event_id "subscription.paused"
            gateway event_data with
        | .error _ => (st1, [.storeWrite, .swallowedIntegrityError])
        | .ok st2 => (st2, [.storeWrite, .storeWrite])

/-- `handle_subscription_resumed` (webhooks.py lines 347-383). -/
def handleSubscriptionResumedH (data : Json) (gateway : String)
    (event_id event_data : Json) (st : Store) : Store × List Action :=
  match data.pyGet "subscription_id" with
  | .error _ => (st, [])
  | .ok subscription_id =>
    if !subscription_id.truthy then (st, [])
    else match findSubscription st subscription_id gateway with
      | none => (st, [.mailAdmins])
      | some sub =>
        let st1 := saveSubscription st { sub with status := .str "active" }
        match createWebhookEvent st1 event_id "subscription.resumed"
            gateway event_data with
        | .error _ => (st1, [.storeWrite, .swallowedIntegrityError])
        | .ok st2 => (st2, [.storeWrite, .storeWrite])

/-- `handle_subscription_halted` (webhooks.py lines 386-422). -/
def handleSubscriptionHaltedH (data : Json) (gateway : String)
    (event_id event_data : Json) (st : Store) : Store × List Action :=
  match data.pyGet "subscription_id" with
  | .error _ => (st, [])
  | .ok subscription_id =>
    if !subscription_id.truthy then (st, [])
    else match findSubscription st subscription_id gateway with
      | none => (st, [.mailAdmins])
      | some sub =>
        let st1 := saveSubscription st { sub with status := .str "unpaid" }
        match createWebhookEvent st1 event_id "subscription.halted"
            gateway event_data with
        | .error _ => (st1, [.storeWrite, .swallowedIntegrityError])
        | .ok st2 => (st2, [.storeWrite, .storeWrite])

/-- The `invoice_data` dict that `handle_invoice_paid` /
`handle_payment_failed` build from the normalized `data` (webhooks.py lines
428-436 and 468-476). -/
def buildInvoiceData (data : Json) (gateway : String) : Json :=
  .obj [("gateway", .str gateway),
        ("gateway_invoice_id", data.objGetD "invoice_id" .null),
        ("gateway_subscription_id", data.objGetD "subscription_id" .null),
        ("amount_cents", data.objGetD "amount_cents" .null),
        ("currency", data.objGetD "currency" (.str "USD")),
        ("issued_at", data.objGetD "issued_at" .null),
        ("invoice_url", data.objGetD "invoice_url" .null)]

/-- `handle_invoice_paid` (webhooks.py lines 425-462): delegates to
`BillingService.handle_successful_payment`; any exception is swallowed with
a log line and an admin mail.  When the service call succeeds the
`WebhookEvent` audit row is inserted. -/
def handleInvoicePaidH (now : Nat) (data : Json) (gateway : String)
    (event_id event_data : Json) (st : Store) : Store × List Action :=
  match data with
  | .obj _ =>
    match handleSuccessfulPayment now false st (buildInvoiceData data gateway) with
    | (.error _, st') => (st', [.mailAdmins])
    | (.ok _, st1) =>
      match createWebhookEvent st1 event_id "invoice.paid"
          gateway event_data with
      | .error _ => (st1, [.storeWrite, .swallowedIntegrityError])
      | .ok st2 => (st2, [.storeWrite, .storeWrite, .enqueuedEmail])
  | _ => (st, [.mailAdmins])

/-- `handle_subscription_charged` (webhooks.py lines 255-261): forwards to
`handle_invoice_paid`. -/
def handleSubscriptionChargedH (now : Nat) (data : Json) (gateway : String)
    (event_id event_data : Json) (st : Store) : Store × List Action :=
  handleInvoicePaidH now data gateway event_id event_data st

/-- `handle_payment_failed` (webhooks.py lines 465-502): delegates to
`BillingService.handle_failed_payment` with the same swallow-and-alert
structure. -/
def handlePaymentFailedH (data : Json) (gateway : String)
    (event_id event_data : Json) (st : Store) : Store × List Action :=
  match data with
  | .obj _ =>
    match handleFailedPayment st (buildInvoiceData data gateway) with
    | (.error _, st') => (st', [.mailAdmins])
    | (.ok _, st1) =>
      match createWebhookEvent st1 event_id "payment.failed"
          gateway event_data with
      | .error _ => (st1, [.storeWrite, .swallowedIntegrityError])
      | .ok st2 => (st2, [.storeWrite, .storeWrite, .enqueuedEmail])
  | _ => (st, [.mailAdmins])

/-- The event-type routing of the Razorpay endpoint (webhooks.py lines
64-83): exact string comparison against the eight handled types, anything
else logged as unhandled. -/
def razorpayRoute (now : Nat) (event_type event_id data event_data : Json)
    (st : Store) : Store × List Action :=
  if Json.beq event_type (.str "subscription.activated") then
    withRouted "subscription.activated"
      (handleSubscriptionActivatedH data "razorpay" event_id event_data st)
  else if Json.beq event_type (.str "subscription.charged") then
    withRouted "subscription.charged"
      (handleSubscriptionChargedH now data "razorpay" event_id event_data st)
  else if Json.beq event_type (.str "subscription.cancelled") then
    withRouted "subscription.cancelled"
      (handleSubscriptionCancelledH now data "razorpay" event_id event_data st)
  else if Json.beq event_type (.str "subscription.paused") then
    withRouted "subscription.paused"
      (handleSubscriptionPausedH data "razorpay" event_id event_data st)
  else if Json.beq event_type (.str "subscription.resumed") then
    withRouted "subscription.resumed"
      (handleSubscriptionResumedH data "razorpay" event_id event_data st)
  else if Json.beq event_type (.str "subscription.halted") then
    withRouted "subscription.halted"
      (handleSubscriptionHaltedH data "razorpay" event_id event_data st)
  else if Json.beq event_type (.str "payment.failed") then
    withRouted "payment.failed"
      (handlePaymentFailedH data "razorpay" event_id event_data st)
  else if Json.beq event_type (.str "invoice.paid") then
    withRouted "invoice.paid"
      (handleInvoicePaidH now data "razorpay" event_id event_data st)
  else
    (st, [.unhandledEvent])
where
  withRouted (ty : String) (r : Store × List Action) : Store × List Action :=
    (r.1, .routedHandler ty :: r.2)

/-- `handle_razorpay_webhook` (webhooks.py lines 19-94).  `decode` stands
for `json.loads` (`none` = `json.JSONDecodeError`).  Order of the pipeline:
resolve gateway, verify signature over the raw body, parse JSON, normalize,
idempotency check against `(event_id, 'razorpay')`, route.  A
`GatewayException` (unconfigured secret, parse failure) and a JSON decode
failure yield 400; an invalid signature yields 400 before any parsing. -/
def handleRazorpayWebhook (webhook_secret : Option String)
    (decode : String → Option Json) (now : Nat) (st : Store)
    (req : WebhookRequest) : DispatchResult :=
  match verifyWebhookSignature webhook_secret req.body req.signature with
  | .error _ => ⟨400, st, []⟩
  | .ok false => ⟨400, st, [.verifiedSignature false]⟩
  | .ok true =>
    match decode req.body with
    | none => ⟨400, st, [.verifiedSignature true]⟩
    | some event_data =>
      match parseWebhookEvent event_data with
      | .error _ => ⟨400, st, [.verifiedSignature true, .parsedJson]⟩
      | .ok ev =>
        if webhookEventExists st ev.event_id "razorpay" then
          ⟨200, st, [.verifiedSignature true, .parsedJson, .dedupCheck true]⟩
        else
          let r := razorpayRoute now ev.event_type ev.event_id ev.data
            event_data st
          ⟨200, r.1,
            [.verifiedSignature true, .parsedJson, .dedupCheck false] ++ r.2⟩

/-- The capability surface of the gateway instance the generic endpoint
resolves via `get_gateway(gateway_name)` — any registered
`BasePaymentGateway` implementation (only its webhook-relevant methods and
the `get_subscription` call reached through
`BillingService.sync_subscription_from_gateway`). -/
structure GatewayIface where
  verify : String → String → Except PyErr Bool
  parse : Json → Except PyErr ParsedEvent
  get_subscription : Json → Except PyErr GatewayResp

/-- The call `BillingService.sync_subscription_from_gateway(subscription)`
as reached from `handle_subscription_updated`: the gateway's
`get_subscription` HTTP call (the `getSub` oracle) followed by the local
sync. -/
def syncFromGatewayCall (getSub : Json → Except PyErr GatewayResp)
    (st : Store) (sub : SubscriptionRow) :
    Except PyErr (SubscriptionRow × Store) := do
  let resp ← getSub sub.gateway_subscription_id
  syncSubscriptionService resp st sub

/-- `handle_subscription_updated` (webhooks.py lines 216-252): re-syncs the
row from the gateway via `BillingService.sync_subscription_from_gateway`,
then inserts the audit row.  Any exception from the sync (gateway failure
included) is swallowed by the handler's broad `except Exception`. -/
def handleSubscriptionUpdatedH (getSub : Json → Except PyErr GatewayResp)
    (data : Json) (gateway : String) (event_id event_data : Json)
    (st : Store) : Store × List Action :=
  match data.pyGet "subscription_id" with
  | .error _ => (st, [])
  | .ok subscription_id =>
    if !subscription_id.truthy then (st, [])
    else match findSubscription st subscription_id gateway with
      | none => (st, [.mailAdmins])
      | some sub =>
        match syncFromGatewayCall getSub st sub with
        | .error _ => (st, [])
        | .ok (_, st1) =>
          match createWebhookEvent st1 event_id "subscription.updated"
              gateway event_data with
          | .error _ => (st1, [.storeWrite, .swallowedIntegrityError])
          | .ok st2 => (st2, [.storeWrite, .storeWrite])

/-- Python `needle in hay` for strings. -/
def strContains (needle hay : String) : Bool :=
  hay.toList.tails.any (fun t => needle.toList.isPrefixOf t)

/-- The substring routing of the generic endpoint (webhooks.py lines
141-153).  `'...' in event_type` raises `TypeError` when the normalized
`event_type` is not a string (e.g. `None`), which escapes to the endpoint's
`except Exception` and turns into a 500. -/
def genericRoute (iface : GatewayIface) (now : Nat)
    (event_type event_id data event_data : Json) (gateway_name : String)
    (st : Store) : Except PyErr (Store × List Action) :=
  match event_type with
  | .str ty =>
    .ok <|
      if strContains "subscription.activated" ty
          || strContains "subscription.created" ty then
        withRouted ty
          (handleSubscriptionActivatedH data gateway_name event_id
            event_data st)
      else if strContains "subscription.updated" ty then
        withRouted ty
          (handleSubscriptionUpdatedH iface.get_subscription data
            gateway_name event_id event_data st)
      else if strContains "subscription.cancelled" ty
          || strContains "subscription.deleted" ty then
        withRouted ty
          (handleSubscriptionCancelledH now data gateway_name event_id
            event_data st)
      else if strContains "invoice.paid" ty
          || strContains "payment.succeeded" ty then
        withRouted ty
          (handleInvoicePaidH now data gateway_name event_id event_data st)
      else if strContains "invoice.payment_failed" ty
          || strContains "payment.failed" ty then
        withRouted ty
          (handlePaymentFailedH data gateway_name event_id event_data st)
      else
        (st, [.unhandledEvent])
  | _ => .error .typeError
where
  withRouted (ty : String) (r : Store × List Action) : Store × List Action :=
    (r.1, .routedHandler ty :: r.2)

/-- `handle_generic_webhook` (webhooks.py lines 97-165).  `gateway?` is the
outcome of `get_gateway(gateway_name)` (`none` = the factory raised
`GatewayException`, e.g. `unsupported_gateway`).  Same pipeline order as the
Razorpay endpoint; the routing's `TypeError` on a non-string event type is
an uncaught exception, hence 500. -/
def handleGenericWebhook (gateway? : Option GatewayIface)
    (decode : String → Option Json) (now : Nat) (gateway_name : String)
    (st : Store) (req : WebhookRequest) : DispatchResult :=
  match gateway? with
  | none => ⟨400, st, []⟩
  | some iface =>
    match iface.verify req.body req.signature with
    | .error _ => ⟨400, st, []⟩
    | .ok false => ⟨400, st, [.verifiedSignature false]⟩
    | .ok true =>
      match decode req.body with
      | none => ⟨400, st, [.verifiedSignature true]⟩
      | some event_data =>
        match iface.parse event_data with
        | .error (.gatewayException _) =>
          ⟨400, st, [.verifiedSignature true, .parsedJson]⟩
        | .error _ =>
          ⟨500, st, [.verifiedSignature true, .parsedJson]⟩
        | .ok ev =>
          if webhookEventExists st ev.event_id gateway_name then
            ⟨200, st,
              [.verifiedSignature true, .parsedJson, .dedupCheck true]⟩
          else
            match genericRoute iface now ev.event_type ev.event_id ev.data
                event_data gateway_name st with
            | .error _ =>
              ⟨500, st,
                [.verifiedSignature true, .parsedJson, .dedupCheck false]⟩
            | .ok r =>
              ⟨200, r.1,
                [.verifiedSignature true, .parsedJson, .dedupCheck false]
                  ++ r.2⟩

/-! ## Store-footprint lemmas

The service-layer payment handlers never touch the `WebhookEvent` table:
only the dispatcher's handlers insert audit rows. -/

lemma createInvoice_ok_events {st st' : Store} {i : InvoiceRow}
    (h : createInvoice st i = .ok st') :
    st'.webhook_events = st.webhook_events := by
  unfold createInvoice at h
  split at h
  · cases h
  split at h
  · cases h
  split at h
  · cases h
  split at h
  · cases h
  injection h with h1
  subst h1
  rfl

lemma paidInvoiceUpsert_events {now : Nat} {st : Store} {d g gid : Json}
    {r : InvoiceRow × Store}
    (h : paidInvoiceUpsert now st d g gid = .ok r) :
    r.2.webhook_events = st.webhook_events := by
  unfold paidInvoiceUpsert at h
  simp only [bind, Except.bind, pure, Except.pure] at h
  repeat' split at h
  all_goals first
    | (injection h with h1
       subst h1
       first
         | rfl
         | (refine Eq.trans ?_ (createInvoice_ok_events (by assumption))
            rfl))
    | injection h

lemma openInvoiceUpsert_events {st : Store} {d g gid : Json}
    {r : InvoiceRow × Store}
    (h : openInvoiceUpsert st d g gid = .ok r) :
    r.2.webhook_events = st.webhook_events := by
  unfold openInvoiceUpsert at h
  simp only [bind, Except.bind, pure, Except.pure] at h
  repeat' split at h
  all_goals first
    | (injection h with h1
       subst h1
       first
         | rfl
         | (refine Eq.trans ?_ (createInvoice_ok_events (by assumption))
            rfl))
    | injection h

lemma hspBody_events {now : Nat} {fault : Bool} {st : Store} {d : Json}
    {r : InvoiceRow × Store}
    (h : handleSuccessfulPaymentBody now fault st d = .ok r) :
    r.2.webhook_events = st.webhook_events := by
  unfold handleSuccessfulPaymentBody at h
  simp only [bind, Except.bind, pure, Except.pure, servicesLoggerCall] at h
  repeat' split at h
  all_goals first
    | (injection h with h1
       subst h1
       first
         | rfl
         | (refine Eq.trans ?_ (paidInvoiceUpsert_events (by assumption))
            rfl))
    | injection h

lemma hfpBody_events {st : Store} {d : Json} {r : InvoiceRow × Store}
    (h : handleFailedPaymentBody st d = .ok r) :
    r.2.webhook_events = st.webhook_events := by
  unfold handleFailedPaymentBody at h
  simp only [bind, Except.bind, pure, Except.pure, servicesLoggerCall] at h
  repeat' split at h
  all_goals first
    | (injection h with h1
       subst h1
       first
         | rfl
         | (refine Eq.trans ?_ (openInvoiceUpsert_events (by assumption))
            rfl))
    | injection h

lemma hsp_events (now : Nat) (fault : Bool) (st : Store) (d : Json) :
    ((handleSuccessfulPayment now fault st d).2).webhook_events
      = st.webhook_events := by
  unfold handleSuccessfulPayment
  split
  · exact hspBody_events (by assumption)
  · rfl

lemma hfp_events (st : Store) (d : Json) :
    ((handleFailedPayment st d).2).webhook_events = st.webhook_events := by
  unfold handleFailedPayment
  split
  · exact hfpBody_events (by assumption)
  · rfl

/-! ## The idempotency-key uniqueness invariant (spec sections 3 and 5) -/

/-- The storage invariant of spec section 5: no two `WebhookEvent` rows share
the `(event_id, gateway)` idempotency key. -/
def pairUnique (l : List WebhookEventRow) : Prop :=
  l.Pairwise (fun a b => ¬(Json.beq a.event_id b.event_id = true ∧ a.gateway = b.gateway))

lemma createWebhookEvent_ok_pairUnique {st st' : Store} {e : Json}
    {ty g : String} {pl : Json}
    (hu : pairUnique st.webhook_events)
    (h : createWebhookEvent st e ty g pl = .ok st') :
    pairUnique st'.webhook_events := by
  unfold createWebhookEvent at h
  split at h
  · cases h
  · injection h with h1
    subst h1
    rename_i hex
    refine List.pairwise_append.mpr ⟨hu, List.pairwise_singleton _ _, ?_⟩
    intro a ha b hb hc
    simp only [List.mem_singleton] at hb
    subst hb
    apply hex
    unfold webhookEventExists
    refine List.any_eq_true.mpr ⟨a, ha, ?_⟩
    have h2 : a.gateway = g := hc.2
    simp [hc.1, h2]

lemma hsp_pairUnique {now : Nat} {fault : Bool} {st : Store} {d : Json}
    {x : Except PyErr InvoiceRow} {st1 : Store}
    (heq : handleSuccessfulPayment now fault st d = (x, st1))
    (hu : pairUnique st.webhook_events) :
    pairUnique st1.webhook_events := by
  have h3 := hsp_events now fault st d
  rw [heq] at h3
  have h2 : st1.webhook_events = st.webhook_events := h3
  rw [pairUnique, h2]
  exact hu

lemma hfp_pairUnique {st : Store} {d : Json}
    {x : Except PyErr InvoiceRow} {st1 : Store}
    (heq : handleFailedPayment st d = (x, st1))
    (hu : pairUnique st.webhook_events) :
    pairUnique st1.webhook_events := by
  have h3 := hfp_events st d
  rw [heq] at h3
  have h2 : st1.webhook_events = st.webhook_events := h3
  rw [pairUnique, h2]
  exact hu

lemma syncService_events {resp : GatewayResp} {st : Store}
    {sub : SubscriptionRow} {r : SubscriptionRow × Store}
    (h : syncSubscriptionService resp st sub = .ok r) :
    r.2.webhook_events = st.webhook_events := by
  unfold syncSubscriptionService at h
  split at h
  · cases h
  · split at h
    · cases h
    · injection h with h1
      subst h1
      rfl

lemma handleSubscriptionActivatedH_pairUnique {data : Json} {gw : String}
    {e ed : Json} {st : Store} (hu : pairUnique st.webhook_events) :
    pairUnique (handleSubscriptionActivatedH data gw e ed st).1.webhook_events := by
  unfold handleSubscriptionActivatedH
  dsimp only
  repeat' split
  all_goals first
    | exact hu
    | (refine createWebhookEvent_ok_pairUnique ?_ (by assumption)
       exact hu)

lemma handleSubscriptionCancelledH_pairUnique {now : Nat} {data : Json}
    {gw : String} {e ed : Json} {st : Store}
    (hu : pairUnique st.webhook_events) :
    pairUnique (handleSubscriptionCancelledH now data gw e ed st).1.webhook_events := by
  unfold handleSubscriptionCancelledH
  dsimp only
  repeat' split
  all_goals first
    | exact hu
    | (refine createWebhookEvent_ok_pairUnique ?_ (by assumption)
       exact hu)

lemma handleSubscriptionPausedH_pairUnique {data : Json} {gw : String}
    {e ed : Json} {st : Store} (hu : pairUnique st.webhook_events) :
    pairUnique (handleSubscriptionPausedH data gw e ed st).1.webhook_events := by
  unfold handleSubscriptionPausedH
  dsimp only
  repeat' split
  all_goals first
    | exact hu
    | (refine createWebhookEvent_ok_pairUnique ?_ (by assumption)
       exact hu)

lemma handleSubscriptionResumedH_pairUnique {data : Json} {gw : String}
    {e ed : Json} {st : Store} (hu : pairUnique st.webhook_events) :
    pairUnique (handleSubscriptionResumedH data gw e ed st).1.webhook_events := by
  unfold handleSubscriptionResumedH
  dsimp only
  repeat' split
  all_goals first
    | exact hu
    | (refine createWebhookEvent_ok_pairUnique ?_ (by assumption)
       exact hu)

lemma handleSubscriptionHaltedH_pairUnique {data : Json} {gw : String}
    {e ed : Json} {st : Store} (hu : pairUnique st.webhook_events) :
    pairUnique (handleSubscriptionHaltedH data gw e ed st).1.webhook_events := by
  unfold handleSubscriptionHaltedH
  dsimp only
  repeat' split
  all_goals first
    | exact hu
    | (refine createWebhookEvent_ok_pairUnique ?_ (by assumption)
       exact hu)

lemma handleInvoicePaidH_pairUnique {now : Nat} {data : Json} {gw : String}
    {e ed : Json} {st : Store} (hu : pairUnique st.webhook_events) :
    pairUnique (handleInvoicePaidH now data gw e ed st).1.webhook_events := by
  unfold handleInvoicePaidH
  repeat' split
  all_goals first
    | exact hu
    | exact hsp_pairUnique (by assumption) hu
    | (refine createWebhookEvent_ok_pairUnique ?_ (by assumption)
       exact hsp_pairUnique (by assumption) hu)

lemma handlePaymentFailedH_pairUnique {data : Json} {gw : String}
    {e ed : Json} {st : Store} (hu : pairUnique st.webhook_events) :
    pairUnique (handlePaymentFailedH data gw e ed st).1.webhook_events := by
  unfold handlePaymentFailedH
  repeat' split
  all_goals first
    | exact hu
    | exact hfp_pairUnique (by assumption) hu
    | (refine createWebhookEvent_ok_pairUnique ?_ (by assumption)
       exact hfp_pairUnique (by assumption) hu)

lemma syncCall_pairUnique {getSub : Json → Except PyErr GatewayResp}
    {st : Store} {sub : SubscriptionRow} {r : SubscriptionRow × Store}
    (heq : syncFromGatewayCall getSub st sub = .ok r)
    (hu : pairUnique st.webhook_events) :
    pairUnique r.2.webhook_events := by
  unfold syncFromGatewayCall at heq
  simp only [bind, Except.bind] at heq
  split at heq
  · cases heq
  · have h2 : r.2.webhook_events = st.webhook_events := syncService_events heq
    rw [pairUnique, h2]
    exact hu

lemma handleSubscriptionUpdatedH_pairUnique
    {getSub : Json → Except PyErr GatewayResp} {data : Json} {gw : String}
    {e ed : Json} {st : Store} (hu : pairUnique st.webhook_events) :
    pairUnique (handleSubscriptionUpdatedH getSub data gw e ed st).1.webhook_events := by
  unfold handleSubscriptionUpdatedH
  repeat' split
  all_goals first
    | exact hu
    | exact syncCall_pairUnique (by assumption) hu
    | (refine createWebhookEvent_ok_pairUnique ?_ (by assumption)
       exact syncCall_pairUnique (by assumption) hu)


lemma handleSubscriptionChargedH_pairUnique {now : Nat} {data : Json}
    {gw : String} {e ed : Json} {st : Store}
    (hu : pairUnique st.webhook_events) :
    pairUnique (handleSubscriptionChargedH now data gw e ed st).1.webhook_events :=
  handleInvoicePaidH_pairUnique hu

lemma razorpayRoute_pairUnique {now : Nat} {et e data ed : Json}
    {st : Store} (hu : pairUnique st.webhook_events) :
    pairUnique (razorpayRoute now et e data ed st).1.webhook_events := by
  unfold razorpayRoute
  split
  · exact handleSubscriptionActivatedH_pairUnique hu
  split
  · exact handleSubscriptionChargedH_pairUnique hu
  split
  · exact handleSubscriptionCancelledH_pairUnique hu
  split
  · exact handleSubscriptionPausedH_pairUnique hu
  split
  · exact handleSubscriptionResumedH_pairUnique hu
  split
  · exact handleSubscriptionHaltedH_pairUnique hu
  split
  · exact handlePaymentFailedH_pairUnique hu
  split
  · exact handleInvoicePaidH_pairUnique hu
  · exact hu

lemma handleRazorpayWebhook_pairUnique {ws : Option String}
    {decode : String → Option Json} {now : Nat} {st : Store}
    {req : WebhookRequest} (hu : pairUnique st.webhook_events) :
    pairUnique (handleRazorpayWebhook ws decode now st req).store.webhook_events := by
  unfold handleRazorpayWebhook
  split
  · exact hu
  · exact hu
  split
  · exact hu
  split
  · exact hu
  split
  · exact hu
  · exact razorpayRoute_pairUnique hu

lemma genericRoute_pairUnique {iface : GatewayIface} {now : Nat}
    {et e data ed : Json} {gw : String} {st : Store}
    {r : Store × List Action}
    (h : genericRoute iface now et e data ed gw st = .ok r)
    (hu : pairUnique st.webhook_events) :
    pairUnique r.1.webhook_events := by
  unfold genericRoute at h
  split at h
  case h_2 => cases h
  injection h with h1
  subst h1
  split
  · exact handleSubscriptionActivatedH_pairUnique hu
  split
  · exact handleSubscriptionUpdatedH_pairUnique hu
  split
  · exact handleSubscriptionCancelledH_pairUnique hu
  split
  · exact handleInvoicePaidH_pairUnique hu
  split
  · exact handlePaymentFailedH_pairUnique hu
  · exact hu

lemma handleGenericWebhook_pairUnique {gw? : Option GatewayIface}
    {decode : String → Option Json} {now : Nat} {gwname : String}
    {st : Store} {req : WebhookRequest} (hu : pairUnique st.webhook_events) :
    pairUnique (handleGenericWebhook gw? decode now gwname st req).store.webhook_events := by
  unfold handleGenericWebhook
  split
  · exact hu
  split
  · exact hu
  · exact hu
  split
  · exact hu
  split
  · exact hu
  · exact hu
  split
  · exact hu
  split
  · exact hu
  · exact genericRoute_pairUnique (by assumption) hu

/-! ## Claims -/

/-- The payloads on which the `try` body of `parse_webhook_event` completes
without an `AttributeError`: the payload is a dict, its `payload` member
(defaulting to `{}`) is a dict, so are the `subscription` / `payment`
members and the `subscription` entity, and — when the subscription entity id
is falsy, so that Python's `or` evaluates its right operand — the payment
entity as well. -/
def envelopeWellShaped (p : Json) : Bool :=
  p.isObj &&
  (let ep := p.objGetD "payload" (.obj [])
   ep.isObj &&
   (let s1 := ep.objGetD "subscription" (.obj [])
    s1.isObj &&
    (let se := s1.objGetD "entity" (.obj [])
     let p1 := ep.objGetD "payment" (.obj [])
     p1.isObj &&
     (let pe := p1.objGetD "entity" (.obj [])
      se.isObj &&
      (let sid := se.objGetD "id" .null
       sid.truthy || pe.isObj)))))

lemma parse_isOk_eq (p : Json) :
    (parseWebhookEvent p).isOk = envelopeWellShaped p := by
  cases p
  case obj f =>
    simp only [parseWebhookEvent, envelopeWellShaped, Json.pyGet, Json.pyGetD,
      Json.isObj, Bool.true_and, bind, Except.bind]
    cases hep : (Json.obj f).objGetD "payload" (Json.obj [])
    case obj g =>
      simp only [hep, Json.isObj, Bool.true_and]
      cases hs1 : (Json.obj g).objGetD "subscription" (Json.obj [])
      case obj s1 =>
        simp only [hs1, Json.isObj, Bool.true_and]
        cases hp1 : (Json.obj g).objGetD "payment" (Json.obj [])
        case obj p1 =>
          simp only [hp1, Json.isObj, Bool.true_and]
          cases hse : (Json.obj s1).objGetD "entity" (Json.obj [])
          case obj se =>
            simp only [hse, Json.isObj, Bool.true_and]
            by_cases hsid : ((Json.obj se).objGetD "id" Json.null).truthy
            · simp [hsid, pure, Except.pure, Except.isOk, Except.toBool]
            · cases hpe : (Json.obj p1).objGetD "entity" (Json.obj []) <;>
                simp [hpe, hsid, pure, Except.pure, Except.isOk, Except.toBool,
                  Json.isObj]
          all_goals
            simp [hse, pure, Except.pure, Except.isOk, Except.toBool, Json.isObj]
        all_goals
          simp [hp1, pure, Except.pure, Except.isOk, Except.toBool, Json.isObj]
      all_goals
        simp [hs1, pure, Except.pure, Except.isOk, Except.toBool, Json.isObj]
    all_goals
      simp [hep, pure, Except.pure, Except.isOk, Except.toBool, Json.isObj]
  all_goals rfl

/-- C5 counterexample: `parse_webhook_event` does raise on a
structurally-unexpected payload.  On `{"payload": 5}` the call
`event_payload.get('subscription', {})` is `5.get(...)`, an
`AttributeError`, which the method re-raises as
`GatewayException('webhook_parsing_failed')` instead of returning
`event_type=None, event_id=None`. -/
theorem parseWebhookEvent_raises_on_nonDict_member :
    parseWebhookEvent (.obj [("payload", .num 5)])
      = .error (.gatewayException "webhook_parsing_failed") := rfl

/-- C5 (amended): `parse_webhook_event` returns normally exactly on payloads
whose envelope members are dicts or absent (`envelopeWellShaped`), and on a
dict payload with all keys missing it returns `event_type=None` and
`event_id=None`; on any other payload — non-dict sub-values included — it
raises `GatewayException('webhook_parsing_failed')` rather than returning. -/
theorem parseWebhookEvent_never_raises_iff_wellShaped :
    (∀ p : Json, (parseWebhookEvent p).isOk = envelopeWellShaped p) ∧
    parseWebhookEvent (.obj [])
      = .ok { event_type := .null, event_id := .null,
              data := .obj [("subscription", .obj []), ("payment", .obj []),
                            ("raw_payload", .obj [])] } :=
  ⟨parse_isOk_eq, rfl⟩

/-! Concrete fixtures for the cancel-subscription scenario (spec section 8):
the gateway reports `status='cancelled'` with `cancelled_at = 100`, while the
local clock at the time of the call reads 200. -/

def c7ProviderCancelResult : Json :=
  .obj [("id", .str "sub_1"), ("status", .str "cancelled"),
        ("ended_at", .num 150), ("cancelled_at", .num 100)]

def c7CancelResp : GatewayResp :=
  { success := true
    data := .obj [("subscription_id", .str "sub_1"),
                  ("status", .str "cancelled"),
                  ("ended_at", .num 150), ("cancelled_at", .num 100)]
    error_message := .null, error_code := .null }

def c7Sub : SubscriptionRow :=
  { organization := 1, plan := 1, gateway := "razorpay"
    gateway_subscription_id := .str "sub_1"
    gateway_customer_id := .str "cust_1", status := .str "active"
    current_period_start := .null, current_period_end := .null
    trial_end := .null, cancel_at_period_end := .bool false
    cancelled_at := .null }

def c7Store : Store := ⟨[c7Sub], [], []⟩

/-- C7 counterexample: after an immediate cancellation the local row's
`cancelled_at` is `timezone.now()` (here 200), not the gateway-reported
timestamp T = 100 that `cancel_response.data['cancelled_at']` carries —
services.py line 124 never reads that field. -/
theorem cancelSubscription_ignores_gateway_timestamp :
    razorpayCancelSubscriptionResp c7ProviderCancelResult = .ok c7CancelResp ∧
    c7CancelResp.data.objGetD "cancelled_at" .null = .num 100 ∧
    (match cancelSubscriptionService c7CancelResp 200 c7Store c7Sub false with
     | .ok (row, _) =>
         row.status = .str "cancelled" ∧
         row.cancel_at_period_end = .bool false ∧
         row.cancelled_at = .num 200 ∧ ¬ row.cancelled_at = .num 100
     | .error _ => False) := by
  refine ⟨rfl, rfl, rfl, rfl, rfl, ?_⟩
  intro h
  injection h with h2
  exact absurd h2 (by decide)

/-- C7 (amended): `cancel_subscription(sub, cancel_at_period_end=False)`
with a successful gateway cancel leaves the local row with
`status='cancelled'`, `cancel_at_period_end=False`, and `cancelled_at` equal
to the local current time of the call — not the gateway-reported
cancellation timestamp. -/
theorem cancelSubscription_immediate_sets_local_now :
    ∀ (resp : GatewayResp) (now : Nat) (st : Store) (sub : SubscriptionRow),
      resp.success = true →
      match cancelSubscriptionService resp now st sub false with
      | .ok (row, st') =>
          row.status = .str "cancelled" ∧
          row.cancelled_at = .num (Int.ofNat now) ∧
          row.cancel_at_period_end = .bool false ∧
          st' = saveSubscription st row
      | .error _ => False := by
  intro resp now st sub h
  unfold cancelSubscriptionService
  simp [h, bind, Except.bind, pure, Except.pure]

/-- Witness for the amended C7 theorem at the concrete fixture. -/
theorem cancelSubscription_immediate_sets_local_now_witness :
    c7CancelResp.success = true ∧
    (match cancelSubscriptionService c7CancelResp 200 c7Store c7Sub false with
     | .ok (row, st') =>
         row.status = .str "cancelled" ∧
         row.cancelled_at = .num (Int.ofNat 200) ∧
         row.cancel_at_period_end = .bool false ∧
         st' = saveSubscription c7Store row
     | .error _ => False) :=
  ⟨rfl, cancelSubscription_immediate_sets_local_now c7CancelResp 200 c7Store
    c7Sub rfl⟩

/-! Fixtures for subscription creation: the provider returns the billing
period bounds under Razorpay's keys `current_start` / `current_end` (the
values from the repository's own gateway test). -/

def c9ProviderCustomer : Json :=
  .obj [("id", .str "cust_test123"), ("email", .str "owner@example.com"),
        ("name", .str "Test Org"), ("created_at", .num 1111)]

def c9CustResp : GatewayResp :=
  { success := true
    data := .obj [("customer_id", .str "cust_test123"),
                  ("email", .str "owner@example.com"),
                  ("name", .str "Test Org"), ("created_at", .num 1111)]
    error_message := .null, error_code := .null }

def c9ProviderSubscription : Json :=
  .obj [("id", .str "sub_test123"), ("status", .str "created"),
        ("plan_id", .str "plan_test123"), ("customer_id", .str "cust_test123"),
        ("current_start", .num 1234567890), ("current_end", .num 1237159890),
        ("charge_at", .num 1234567890)]

def c9SubResp : GatewayResp :=
  { success := true
    data := .obj [("subscription_id", .str "sub_test123"),
                  ("status", .str "created"),
                  ("plan_id", .str "plan_test123"),
                  ("customer_id", .str "cust_test123"),
                  ("current_start", .num 1234567890),
                  ("current_end", .num 1237159890),
                  ("charge_at", .num 1234567890),
                  ("start_at", .null), ("end_at", .null)]
    error_message := .null, error_code := .null }

/-- C9: the gateway response carries the billing period bounds only under
the provider keys `current_start` / `current_end`, while
`BillingService.create_subscription` reads `current_period_start` /
`current_period_end` (services.py lines 79-80); the persisted row therefore
has NULL period bounds (the gateway-returned status is stored). -/
theorem createSubscription_drops_gateway_period_bounds :
    razorpayCreateCustomerResp c9ProviderCustomer = .ok c9CustResp ∧
    razorpayCreateSubscriptionResp c9ProviderSubscription = .ok c9SubResp ∧
    c9SubResp.data.objGetD "current_start" .null = .num 1234567890 ∧
    c9SubResp.data.objGetD "current_end" .null = .num 1237159890 ∧
    (match createSubscriptionService c9CustResp c9SubResp 1 1 "razorpay"
        ⟨[], [], []⟩ with
     | .ok (row, _) =>
         row.status = .str "created" ∧
         row.gateway_subscription_id = .str "sub_test123" ∧
         row.current_period_start = .null ∧
         row.current_period_end = .null
     | .error _ => False) :=
  ⟨rfl, rfl, rfl, rfl, rfl, rfl, rfl, rfl⟩

/-! Fixture for payment handling against a dangling gateway-side
subscription reference: the store holds the invoice but no subscription. -/

def c1Invoice : InvoiceRow :=
  { organization := some 1, subscription := .null, gateway := .str "razorpay"
    gateway_invoice_id := .str "inv_1", amount_cents := .num 1999
    currency := .str "USD", status := .str "open", issued_at := .null
    paid_at := .null, invoice_url := .null }

def c1Store : Store := ⟨[], [c1Invoice], []⟩

def c1InvoiceData : Json :=
  .obj [("gateway", .str "razorpay"), ("gateway_invoice_id", .str "inv_1"),
        ("gateway_subscription_id", .str "sub_dangling")]

/-- C1: on an invoice referencing a gateway subscription id with no local
`Subscription` row, `handle_successful_payment` raises `NameError` (its
`except Subscription.DoesNotExist` handler calls the undefined `logger`)
and the `@transaction.atomic` wrapper rolls back the invoice write: the call
does not return an invoice and the pre-existing invoice row keeps its
pre-call `'open'` status. -/
theorem handleSuccessfulPayment_dangling_sub_raises_and_rolls_back :
    findSubscriptionById c1Store (.str "sub_dangling") = none ∧
    handleSuccessfulPayment 500 false c1Store c1InvoiceData
      = (.error .nameError, c1Store) ∧
    (findInvoice c1Store (.str "inv_1")).map (fun r => r.status)
      = some (.str "open") :=
  ⟨rfl, rfl, rfl⟩

lemma objGetD_getD_self (d : Json) (k : String) (x : Json) :
    d.objGetD k (d.objGetD k x) = d.objGetD k x := by
  cases d <;> try rfl
  case obj f =>
    unfold Json.objGetD
    cases hl : f.lookup k <;> simp [hl]

lemma objGetD_obj (f : List (String × Json)) (k : String) (d : Json) :
    (Json.obj f).objGetD k d
      = match List.lookup k f with | some v => v | none => d := rfl

lemma objGetD_truthy_lookup {f : List (String × Json)} {k : String}
    (h : ((Json.obj f).objGetD k .null).truthy = true) :
    List.lookup k f = some ((Json.obj f).objGetD k .null) := by
  cases hl : List.lookup k f
  · exfalso
    rw [objGetD_obj, hl] at h
    simp [Json.truthy] at h
  · rw [objGetD_obj, hl]

lemma syncApply_idem {s s1 : SubscriptionRow} {d : Json}
    (h : syncApply s d = .ok s1) : syncApply s1 d = .ok s1 := by
  cases d
  case obj f =>
    unfold syncApply at h ⊢
    simp only [Json.pyGet, Json.pyGetD, bind, Except.bind, pure,
      Except.pure] at h ⊢
    by_cases hc : (((Json.obj f).objGetD "cancelled_at" Json.null).truthy
        && !s.cancelled_at.truthy) = true
    · rw [if_pos hc] at h
      have hpair : ((Json.obj f).objGetD "cancelled_at" Json.null).truthy
          = true ∧ (!s.cancelled_at.truthy) = true := by
        simpa [Bool.and_eq_true] using hc
      have hl := objGetD_truthy_lookup hpair.1
      simp only [Json.pyIndex, hl] at h
      injection h with h1
      subst h1
      rw [if_neg]
      · simp [objGetD_getD_self]
      · simp [hpair.1]
    · rw [if_neg hc] at h
      injection h with h1
      subst h1
      rw [if_neg]
      · simp [objGetD_getD_self]
      · simpa using hc
  all_goals simp [syncApply, Json.pyGetD, bind, Except.bind] at h

lemma saveSubscription_idem (st : Store) (s : SubscriptionRow) :
    saveSubscription (saveSubscription st s) s = saveSubscription st s := by
  unfold saveSubscription
  simp only [List.map_map]
  congr 1
  congr 1
  funext r
  simp only [Function.comp]
  by_cases hr : Json.beq r.gateway_subscription_id s.gateway_subscription_id
  · simp [hr]
  · simp [hr]

/-- C8: `sync_subscription_from_gateway` is idempotent — when the gateway
returns identical subscription data both times, re-syncing the just-synced
row is a no-op: the second application returns the same row and leaves the
store exactly as the first application left it. -/
theorem syncSubscription_idempotent :
    ∀ (resp : GatewayResp) (st st1 : Store) (sub sub1 : SubscriptionRow),
      syncSubscriptionService resp st sub = .ok (sub1, st1) →
      syncSubscriptionService resp st1 sub1 = .ok (sub1, st1) := by
  intro resp st st1 sub sub1 h
  unfold syncSubscriptionService at h ⊢
  cases hs : resp.success
  case false =>
    rw [hs] at h
    simp [bind, Except.bind] at h
  case true =>
    rw [hs] at h
    simp only [Bool.not_true] at h ⊢
    rw [if_neg (show ¬false = true by decide)] at h ⊢
    split at h
    case h_1 => cases h
    case h_2 sres heq =>
      injection h with h1
      injection h1 with h2 h3
      subst h2
      subst h3
      rw [syncApply_idem heq]
      show Except.ok (sres, saveSubscription (saveSubscription st sres) sres)
        = Except.ok (sres, saveSubscription st sres)
      rw [saveSubscription_idem]

def c8Resp : GatewayResp :=
  { success := true
    data := .obj [("status", .str "active"),
                  ("current_period_start", .num 1000),
                  ("current_period_end", .num 2000)]
    error_message := .null, error_code := .null }

def c8Sub : SubscriptionRow :=
  { organization := 2, plan := 2, gateway := "razorpay"
    gateway_subscription_id := .str "sub_8"
    gateway_customer_id := .str "cust_8", status := .str "past_due"
    current_period_start := .null, current_period_end := .null
    trial_end := .null, cancel_at_period_end := .bool false
    cancelled_at := .null }

def c8Store : Store := ⟨[c8Sub], [], []⟩

def c8Sub1 : SubscriptionRow :=
  { c8Sub with status := .str "active", current_period_start := .num 1000
               current_period_end := .num 2000 }

def c8Store1 : Store := ⟨[c8Sub1], [], []⟩

/-- Witness for the sync idempotence theorem at a concrete row and
gateway response. -/
theorem syncSubscription_idempotent_witness :
    syncSubscriptionService c8Resp c8Store1 c8Sub1 = .ok (c8Sub1, c8Store1) :=
  syncSubscription_idempotent c8Resp c8Store c8Store1 c8Sub c8Sub1 rfl

lemma createInvoice_ok_subs {st st' : Store} {i : InvoiceRow}
    (h : createInvoice st i = .ok st') :
    st'.subscriptions = st.subscriptions := by
  unfold createInvoice at h
  split at h
  · cases h
  split at h
  · cases h
  split at h
  · cases h
  split at h
  · cases h
  injection h with h1
  subst h1
  rfl

lemma paidInvoiceUpsert_subs {now : Nat} {st : Store} {d g gid : Json}
    {r : InvoiceRow × Store}
    (h : paidInvoiceUpsert now st d g gid = .ok r) :
    r.2.subscriptions = st.subscriptions := by
  unfold paidInvoiceUpsert at h
  simp only [bind, Except.bind, pure, Except.pure] at h
  repeat' split at h
  all_goals first
    | (injection h with h1
       subst h1
       first
         | rfl
         | (refine Eq.trans ?_ (createInvoice_ok_subs (by assumption))
            rfl))
    | injection h

/-- C2: when `handle_successful_payment` finds the subscription referenced
by the invoice, the subscription needs unblocking (status in past_due /
unpaid / incomplete), and the subscription's status-update save raises, the
whole call raises (surfacing `NameError` from the undefined `logger` in the
`except` chain) and `@transaction.atomic` restores the pre-call store: the
invoice insert or update made earlier in the call is rolled back. -/
theorem handleSuccessfulPayment_subSaveFault_rolls_back :
    ∀ (now : Nat) (st : Store) (d g gid sid : Json)
      (sub : SubscriptionRow),
      d.pyIndex "gateway" = .ok g →
      d.pyIndex "gateway_invoice_id" = .ok gid →
      d.pyGet "gateway_subscription_id" = .ok sid →
      sid.truthy = true →
      findSubscriptionById st sid = some sub →
      (Json.beq sub.status (.str "past_due")
        || Json.beq sub.status (.str "unpaid")
        || Json.beq sub.status (.str "incomplete")) = true →
      handleSuccessfulPayment now true st d = (.error .nameError, st) := by
  intro now st d g gid sid sub hg hgid hsid htr hfind hstat
  unfold handleSuccessfulPayment
  cases hbody : handleSuccessfulPaymentBody now true st d
  case error e => rfl
  case ok r =>
    exfalso
    unfold handleSuccessfulPaymentBody at hbody
    simp only [bind, Except.bind, pure, Except.pure, hg, hgid, hsid,
      servicesLoggerCall] at hbody
    split at hbody
    case h_1 => cases hbody
    case h_2 r1 hup =>
      have hsubs : r1.2.subscriptions = st.subscriptions :=
        paidInvoiceUpsert_subs hup
      have hf2 : findSubscriptionById r1.2 sid = some sub := by
        unfold findSubscriptionById
        rw [hsubs]
        exact hfind
      simp only [htr, hf2, hstat, if_true] at hbody
      cases hbody

def c2Sub : SubscriptionRow :=
  { organization := 3, plan := 3, gateway := "razorpay"
    gateway_subscription_id := .str "sub_2"
    gateway_customer_id := .str "cust_2", status := .str "past_due"
    current_period_start := .null, current_period_end := .null
    trial_end := .null, cancel_at_period_end := .bool false
    cancelled_at := .null }

def c2Invoice : InvoiceRow :=
  { organization := some 3, subscription := .null, gateway := .str "razorpay"
    gateway_invoice_id := .str "inv_2", amount_cents := .num 1999
    currency := .str "USD", status := .str "open", issued_at := .null
    paid_at := .null, invoice_url := .null }

def c2Store : Store := ⟨[c2Sub], [c2Invoice], []⟩

def c2Data : Json :=
  .obj [("gateway", .str "razorpay"), ("gateway_invoice_id", .str "inv_2"),
        ("gateway_subscription_id", .str "sub_2")]

/-- Witness for the rollback theorem at a concrete store: a past_due
subscription is found, its save raises, and the whole call raises with the
store unchanged. -/
theorem handleSuccessfulPayment_subSaveFault_rolls_back_witness :
    handleSuccessfulPayment 700 true c2Store c2Data
      = (.error .nameError, c2Store) :=
  handleSuccessfulPayment_subSaveFault_rolls_back 700 c2Store c2Data
    (.str "razorpay") (.str "inv_2") (.str "sub_2") c2Sub
    rfl rfl rfl rfl rfl rfl

/-- C3: a webhook POST whose raw-body signature fails verification is
rejected with 400 by both endpoints before anything else happens: the store
is unchanged and the delivery trace records only the failed verification —
no JSON parse, no routed handler, no store write. -/
theorem webhook_signature_gate :
    (∀ (secret : String) (decode : String → Option Json) (now : Nat)
        (st : Store) (req : WebhookRequest),
        ¬ hmacSha256Hex secret req.body = req.signature →
        handleRazorpayWebhook (some secret) decode now st req
          = ⟨400, st, [.verifiedSignature false]⟩) ∧
    (∀ (iface : GatewayIface) (decode : String → Option Json) (now : Nat)
        (gname : String) (st : Store) (req : WebhookRequest),
        iface.verify req.body req.signature = .ok false →
        handleGenericWebhook (some iface) decode now gname st req
          = ⟨400, st, [.verifiedSignature false]⟩) := by
  constructor
  · intro secret decode now st req h
    unfold handleRazorpayWebhook
    rw [show verifyWebhookSignature (some secret) req.body req.signature
          = .ok false from by
        show Except.ok (hmacSha256Hex secret req.body == req.signature)
          = Except.ok false
        rw [beq_eq_false_iff_ne.mpr h]]
  · intro iface decode now gname st req h
    unfold handleGenericWebhook
    simp only [h]

def c3Iface : GatewayIface :=
  { verify := fun _ _ => .ok false
    parse := fun _ => .error .typeError
    get_subscription := fun _ => .error .typeError }

/-- Witness for the signature gate at concrete requests on both
endpoints. -/
theorem webhook_signature_gate_witness :
    (¬ hmacSha256Hex "whsec" "{}" = "bad") ∧
    handleRazorpayWebhook (some "whsec") (fun _ => none) 0 ⟨[], [], []⟩
        ⟨"{}", "bad"⟩
      = ⟨400, ⟨[], [], []⟩, [.verifiedSignature false]⟩ ∧
    handleGenericWebhook (some c3Iface) (fun _ => none) 0 "stripe"
        ⟨[], [], []⟩ ⟨"{}", "bad"⟩
      = ⟨400, ⟨[], [], []⟩, [.verifiedSignature false]⟩ :=
  ⟨by decide,
    webhook_signature_gate.1 "whsec" (fun _ => none) 0 ⟨[], [], []⟩
      ⟨"{}", "bad"⟩ (by decide),
    webhook_signature_gate.2 c3Iface (fun _ => none) 0 "stripe" ⟨[], [], []⟩
      ⟨"{}", "bad"⟩ rfl⟩

/-- C10: in the Razorpay pipeline the deduplication key is the id of the
subscription (or payment) entity inside the payload — `parse_webhook_event`
returns that entity id as `event_id`, ignoring any provider-level top-level
id — and any delivery whose parsed `event_id` already has a `WebhookEvent`
row for gateway `razorpay` is skipped with a 200 and no state change, even
though it may carry a different event type. -/
theorem razorpay_dedup_keyed_on_entity_id :
    (∀ (ty providerId e : Json),
        e.truthy = true →
        parseWebhookEvent
            (.obj [("id", providerId), ("event", ty),
                   ("payload", .obj [("subscription",
                      .obj [("entity", .obj [("id", e)])])])])
          = .ok { event_type := ty, event_id := e,
                  data := .obj [("subscription", .obj [("id", e)]),
                                ("payment", .obj []),
                                ("raw_payload", .obj [("subscription",
                                   .obj [("entity", .obj [("id", e)])])])] }) ∧
    (∀ (secret : String) (decode : String → Option Json) (now : Nat)
        (st : Store) (req : WebhookRequest) (ed : Json) (ev : ParsedEvent),
        hmacSha256Hex secret req.body = req.signature →
        decode req.body = some ed →
        parseWebhookEvent ed = .ok ev →
        webhookEventExists st ev.event_id "razorpay" = true →
        handleRazorpayWebhook (some secret) decode now st req
          = ⟨200, st, [.verifiedSignature true, .parsedJson,
              .dedupCheck true]⟩) := by
  constructor
  · intro ty providerId e h
    simp [parseWebhookEvent, Json.pyGet, Json.pyGetD, Json.objGetD,
      List.lookup, bind, Except.bind, pure, Except.pure, h]
  · intro secret decode now st req ed ev h1 h2 h3 h4
    unfold handleRazorpayWebhook
    rw [show verifyWebhookSignature (some secret) req.body req.signature
          = .ok true from by
        show Except.ok (hmacSha256Hex secret req.body == req.signature)
          = Except.ok true
        rw [beq_iff_eq.mpr h1]]
    simp only [h2, h3, h4, if_true]

def c10Payload : Json :=
  .obj [("id", .str "evt_99"), ("event", .str "subscription.cancelled"),
        ("payload", .obj [("subscription",
           .obj [("entity", .obj [("id", .str "sub_1")])])])]

def c10Row : WebhookEventRow :=
  ⟨.str "sub_1", "subscription.activated", "razorpay", .null⟩

def c10Store : Store := ⟨[], [], [c10Row]⟩

/-- Witness: a `subscription.cancelled` payload whose subscription entity id
already has a recorded `WebhookEvent` row (written for a different event
type) is skipped with a 200 and an unchanged store. -/
theorem razorpay_dedup_keyed_on_entity_id_witness :
    parseWebhookEvent c10Payload
      = .ok { event_type := .str "subscription.cancelled",
              event_id := .str "sub_1",
              data := .obj [("subscription", .obj [("id", .str "sub_1")]),
                            ("payment", .obj []),
                            ("raw_payload", .obj [("subscription",
                               .obj [("entity",
                                 .obj [("id", .str "sub_1")])])])] } ∧
    handleRazorpayWebhook (some "whsec") (fun _ => some c10Payload) 0
        c10Store ⟨"raw", hmacSha256Hex "whsec" "raw"⟩
      = ⟨200, c10Store, [.verifiedSignature true, .parsedJson,
          .dedupCheck true]⟩ :=
  ⟨razorpay_dedup_keyed_on_entity_id.1 (.str "subscription.cancelled")
      (.str "evt_99") (.str "sub_1") rfl,
    razorpay_dedup_keyed_on_entity_id.2 "whsec" (fun _ => some c10Payload) 0
      c10Store ⟨"raw", hmacSha256Hex "whsec" "raw"⟩ c10Payload
      { event_type := .str "subscription.cancelled",
        event_id := .str "sub_1",
        data := .obj [("subscription", .obj [("id", .str "sub_1")]),
                      ("payment", .obj []),
                      ("raw_payload", .obj [("subscription",
                         .obj [("entity", .obj [("id", .str "sub_1")])])])] }
      rfl rfl rfl rfl⟩

/-! Fixtures for redelivery through the Razorpay endpoint: a well-formed
`subscription.activated` payload whose subscription exists locally,
delivered twice with a valid signature. -/

def c4Payload : Json :=
  .obj [("event", .str "subscription.activated"),
        ("payload", .obj [("subscription",
           .obj [("entity", .obj [("id", .str "sub_1"),
                                  ("status", .str "active")])])])]

def c4Sub : SubscriptionRow :=
  { organization := 4, plan := 4, gateway := "razorpay"
    gateway_subscription_id := .str "sub_1"
    gateway_customer_id := .str "cust_4", status := .str "past_due"
    current_period_start := .null, current_period_end := .null
    trial_end := .null, cancel_at_period_end := .bool false
    cancelled_at := .null }

def c4Store : Store := ⟨[c4Sub], [], []⟩

def c4Req : WebhookRequest := ⟨"rawbody", hmacSha256Hex "whsec" "rawbody"⟩

def c4First : DispatchResult :=
  handleRazorpayWebhook (some "whsec") (fun _ => some c4Payload) 100
    c4Store c4Req

def c4Second : DispatchResult :=
  handleRazorpayWebhook (some "whsec") (fun _ => some c4Payload) 200
    c4First.store c4Req

/-- C4: redelivering the same Razorpay payload is not deduplicated and the
first delivery performs no state mutation.  `parse_webhook_event` nests the
entity under `data['subscription']`, while the handler reads
`data['subscription_id']`; the handler therefore returns without touching
the matching local subscription and without inserting the `WebhookEvent`
row, so the second delivery passes the idempotency check (`dedupCheck
false`) and is routed again.  Both deliveries return 200 and leave the
store exactly as it was. -/
theorem razorpay_redelivery_not_skipped :
    c4First.status = 200 ∧ c4First.store = c4Store ∧
    c4First.trace = [.verifiedSignature true, .parsedJson, .dedupCheck false,
      .routedHandler "subscription.activated"] ∧
    c4Second.status = 200 ∧ c4Second.store = c4Store ∧
    c4Second.trace = [.verifiedSignature true, .parsedJson, .dedupCheck false,
      .routedHandler "subscription.activated"] ∧
    c4Store.webhook_events = [] ∧
    findSubscription c4Store (.str "sub_1") "razorpay" = some c4Sub :=
  ⟨rfl, rfl, rfl, rfl, rfl, rfl, rfl, rfl⟩

/-! Fixture for the check-then-insert race (spec section 5): this worker
passed the idempotency check and mutated the subscription, but a concurrent
delivery of the same event inserted the `(sub_1, razorpay)` audit row in
between, so this worker's insert hits the uniqueness constraint. -/

def c6Data : Json := .obj [("subscription_id", .str "sub_1")]

def c6Row : WebhookEventRow :=
  ⟨.str "sub_1", "subscription.activated", "razorpay", .null⟩

def c6Sub : SubscriptionRow :=
  { organization := 6, plan := 6, gateway := "razorpay"
    gateway_subscription_id := .str "sub_1"
    gateway_customer_id := .str "cust_6", status := .str "past_due"
    current_period_start := .null, current_period_end := .null
    trial_end := .null, cancel_at_period_end := .bool false
    cancelled_at := .null }

def c6StoreWithRow : Store := ⟨[c6Sub], [], [c6Row]⟩

def c6Race : Store × List Action :=
  handleSubscriptionActivatedH c6Data "razorpay" (.str "sub_1") .null
    c6StoreWithRow

/-- C6: the `(event_id, gateway)` pair stays unique in every store both
endpoints can produce (the spec-modelled constraint makes the duplicate
insert fail, and no handler adds a row whose pair is present); a delivery
that reaches routing always ends in a 200 regardless of what the handler
hit; and in the lost-race scenario the handler's `WebhookEvent` insert
fails with `IntegrityError`, is swallowed by the handler's broad `except`
(trace `swallowedIntegrityError`), leaves no duplicate row, and keeps the
handler's own mutation. -/
theorem webhookEvent_pair_unique_and_race_swallowed :
    (∀ (ws : Option String) (decode : String → Option Json) (now : Nat)
        (st : Store) (req : WebhookRequest),
        pairUnique st.webhook_events →
        pairUnique
          (handleRazorpayWebhook ws decode now st req).store.webhook_events) ∧
    (∀ (gw? : Option GatewayIface) (decode : String → Option Json)
        (now : Nat) (gname : String) (st : Store) (req : WebhookRequest),
        pairUnique st.webhook_events →
        pairUnique
          (handleGenericWebhook gw? decode now gname st
            req).store.webhook_events) ∧
    (∀ (secret : String) (decode : String → Option Json) (now : Nat)
        (st : Store) (req : WebhookRequest) (ed : Json) (ev : ParsedEvent),
        hmacSha256Hex secret req.body = req.signature →
        decode req.body = some ed →
        parseWebhookEvent ed = .ok ev →
        (handleRazorpayWebhook (some secret) decode now st req).status
          = 200) ∧
    (c6Race.1.webhook_events = c6StoreWithRow.webhook_events ∧
     c6Race.2 = [.storeWrite, .swallowedIntegrityError] ∧
     (findSubscription c6Race.1 (.str "sub_1") "razorpay").map
         (fun r => r.status)
       = some (.str "active")) := by
  refine ⟨?_, ?_, ?_, rfl, rfl, rfl⟩
  · intro ws decode now st req hu
    exact handleRazorpayWebhook_pairUnique hu
  · intro gw? decode now gname st req hu
    exact handleGenericWebhook_pairUnique hu
  · intro secret decode now st req ed ev h1 h2 h3
    unfold handleRazorpayWebhook
    rw [show verifyWebhookSignature (some secret) req.body req.signature
          = .ok true from by
        show Except.ok (hmacSha256Hex secret req.body == req.signature)
          = Except.ok true
        rw [beq_iff_eq.mpr h1]]
    simp only [h2, h3]
    split <;> rfl

/-- Witness for the uniqueness-and-success theorem at concrete requests. -/
theorem webhookEvent_pair_unique_and_race_swallowed_witness :
    pairUnique (handleRazorpayWebhook (some "k") (fun _ => none) 0
      ⟨[], [], []⟩ ⟨"b", "s"⟩).store.webhook_events ∧
    pairUnique (handleGenericWebhook none (fun _ => none) 0 "stripe"
      ⟨[], [], []⟩ ⟨"b", "s"⟩).store.webhook_events ∧
    (handleRazorpayWebhook (some "whsec") (fun _ => some (.obj [])) 0
      ⟨[], [], []⟩ ⟨"raw", hmacSha256Hex "whsec" "raw"⟩).status = 200 :=
  ⟨webhookEvent_pair_unique_and_race_swallowed.1 (some "k") (fun _ => none)
      0 ⟨[], [], []⟩ ⟨"b", "s"⟩ List.Pairwise.nil,
    webhookEvent_pair_unique_and_race_swallowed.2.1 none (fun _ => none) 0
      "stripe" ⟨[], [], []⟩ ⟨"b", "s"⟩ List.Pairwise.nil,
    webhookEvent_pair_unique_and_race_swallowed.2.2.1 "whsec"
      (fun _ => some (.obj [])) 0 ⟨[], [], []⟩
      ⟨"raw", hmacSha256Hex "whsec" "raw"⟩ (.obj [])
      { event_type := .null, event_id := .null,
        data := .obj [("subscription", .obj []), ("payment", .obj []),
                      ("raw_payload", .obj [])] }
      rfl rfl rfl⟩

end Billing
